import Mathlib

/-!
Verification of the `hits-per-page` connector
(`src/connectors/hits-per-page/connectHitsPerPage.ts`).

The connector is embedded shallowly: JavaScript values that can flow through
the connector are modelled by `JSVal`, search state by `SearchParameters`,
the stateful helper by `Helper` (explicit state passing, with a search
counter standing for the searches triggered), and each widget hook by a pure
Lean function returning the data the hook produces (updated state, warnings
fired, render-callback invocations).
-/

namespace ConnectHitsPerPage

/-- A JavaScript value as it can appear in the connector: `undefined`,
`null`, `NaN`, an (integral) number, a string, or a boolean. -/
inductive JSVal where
  | undef
  | null
  | nan
  | num (n : Int)
  | str (s : String)
  | bool (b : Bool)
deriving DecidableEq, Repr

/-- JavaScript truthiness: `undefined`, `null`, `NaN`, `0`, `""` and
`false` are falsy, everything else modelled here is truthy. -/
def truthy : JSVal → Bool
  | .undef => false
  | .null => false
  | .nan => false
  | .num n => n != 0
  | .str s => s != ""
  | .bool b => b

/-- The result of JavaScript `Number(...)` coercion: `NaN` or a number. -/
inductive NumV where
  | nan
  | int (n : Int)
deriving DecidableEq, Repr

/-- Interprets a decimal digit string as a number. -/
def digitStringToInt (s : String) : Int :=
  Int.ofNat (s.foldl (fun a c => a * 10 + (c.toNat - 48)) 0)

/-- JavaScript `Number(...)` coercion: `undefined ↦ NaN`, `null ↦ 0`,
`"" ↦ 0`, decimal digit strings parse, other strings give `NaN`,
booleans give `0`/`1`. -/
def toNumber : JSVal → NumV
  | .undef => .nan
  | .null => .int 0
  | .nan => .nan
  | .num n => .int n
  | .str s =>
    if s = "" then .int 0
    else if s.all Char.isDigit then .int (digitStringToInt s)
    else .nan
  | .bool b => .int (if b then 1 else 0)

/-- Strict equality `===` on coerced numbers: `NaN` equals nothing. -/
def numEq : NumV → NumV → Bool
  | .int a, .int b => a == b
  | _, _ => false

/-- JavaScript strict equality `===` on `JSVal`: same-type structural
equality, except that `NaN` is equal to nothing (itself included). -/
def jsStrictEq : JSVal → JSVal → Bool
  | .undef, .undef => true
  | .null, .null => true
  | .nan, _ => false
  | _, .nan => false
  | .num a, .num b => a == b
  | .str a, .str b => a == b
  | .bool a, .bool b => a == b
  | _, _ => false

/-- One entry of the `items` option (`HitsPerPageWidgetOptionsItem`):
`label`, optional numeric `value` (a `JSVal`, since the synthetic recovery
item carries the empty string), optional `default` flag. -/
structure Item where
  label : String
  value : JSVal
  default : Option Bool
deriving DecidableEq, Repr

/-- The construction-time filter predicate `item.default === true`. -/
def isDefaultItem (item : Item) : Bool := item.default == some true

/-- A normalized item (`HitsPerPageRenderingOptionsItem`): the original
fields plus the computed `isRefined` flag (the object spread `...item`
keeps every original field). -/
structure RItem where
  label : String
  value : JSVal
  default : Option Bool
  isRefined : Bool
deriving DecidableEq, Repr

/-- Search parameters, reduced to the one field the connector touches plus
an opaque remainder standing for every other parameter. -/
structure SearchParameters where
  hitsPerPage : JSVal
  otherParams : Nat
deriving DecidableEq, Repr

/-- The stateful search helper: its current parameters and a counter of the
searches triggered so far. -/
structure Helper where
  state : SearchParameters
  searchCount : Nat
deriving DecidableEq, Repr

/-- `helper.setQueryParameter('hitsPerPage', v)`. -/
def Helper.setHitsPerPageParam (helper : Helper) (v : JSVal) : Helper :=
  { helper with state := { helper.state with hitsPerPage := v } }

/-- `helper.search()`: triggers a new search. -/
def Helper.search (helper : Helper) : Helper :=
  { helper with searchCount := helper.searchCount + 1 }

/-- The UI-state snapshot, reduced to the `hitsPerPage` field (`JSVal.undef`
models an absent field) plus an opaque remainder for the other fields. -/
structure UiState where
  hitsPerPage : JSVal
  otherFields : Nat
deriving DecidableEq, Repr

/-- Modelled from the spec: `createDocumentationMessageGenerator` lives in
`lib/utils`, which is not under `src/`; the spec says construction errors
are thrown with a documentation-referencing message, so the generator is
modelled as appending the connector's documentation link. -/
def withUsage (message : String) : String :=
  message ++
    " See documentation: https://www.algolia.com/doc/api-reference/widgets/hits-per-page/js/#connector"

/-- Whether `needle` occurs as a contiguous sublist of the second list. -/
def hasSubstring (needle : List Char) : List Char → Bool
  | [] => needle.isPrefixOf []
  | c :: rest => needle.isPrefixOf (c :: rest) || hasSubstring needle rest

/-- Whether a message references the documentation. -/
def mentionsDocumentation (s : String) : Bool :=
  hasSubstring "documentation".data s.data

/-- The `items` option as received: either not an array at all, or an array
of items. -/
inductive ItemsOption where
  | notArray
  | array (items : List Item)
deriving DecidableEq, Repr

/-- The state a successful widget construction retains: the configured item
list and the `defaultItem` (`defaultItems[0]`). -/
structure Widget where
  items : List Item
  defaultItem : Item
deriving DecidableEq, Repr

/-- Widget construction (`connectHitsPerPage(renderFn)(widgetParams)` up to
`const defaultItem = defaultItems[0]`): throws on a non-array `items`
option, on zero `default === true` items, and on more than one; otherwise
retains the items and the unique default item. -/
def construct : ItemsOption → Except String Widget
  | .notArray =>
    .error (withUsage "The `items` option expects an array of objects.")
  | .array items =>
    match items.filter isDefaultItem with
    | [] => .error (withUsage "A default value must be specified in `items`.")
    | [d] => .ok { items := items, defaultItem := d }
    | _ =>
      .error (withUsage "More than one default value is specified in `items`.")

/-- `normalizeItems`: maps each item to itself extended with
`isRefined: Number(item.value) === Number(hitsPerPage)`. -/
def normalizeItems (items : List Item) (hitsPerPage : JSVal) : List RItem :=
  items.map fun item =>
    { label := item.label
      value := item.value
      default := item.default
      isRefined := numEq (toNumber item.value) (toNumber hitsPerPage) }

/-- `setHitsPerPage` (the `refine` callback):
`!value && value !== 0` clears the parameter, otherwise sets it to `value`;
both branches trigger a search. -/
def setHitsPerPage (helper : Helper) (value : JSVal) : Helper :=
  if !truthy value && !jsStrictEq value (.num 0) then
    (helper.setHitsPerPageParam .undef).search
  else
    (helper.setHitsPerPageParam value).search

/-- Modelled from the spec: the `warning` helper lives in `lib/utils`, which
is not under `src/`; it emits a non-fatal diagnostic exactly when its
condition is falsy (the spec pairs the first warning with the state being
"not configured at all", the case in which its condition
`state.hitsPerPage !== undefined` is false). -/
def warningFires (condition : Bool) : Bool := !condition

/-- The synthetic recovery item `{ value: '', label: '' }` prepended at init
when the state value matches no configured item; it carries no `default`
flag. -/
def syntheticItem : Item := { label := "", value := .str "", default := none }

/-- `items.some(item => Number(state.hitsPerPage) === Number(item.value))`. -/
def isCurrentInOptions (items : List Item) (state : SearchParameters) : Bool :=
  items.any fun item => numEq (toNumber state.hitsPerPage) (toNumber item.value)

/-- One invocation of the rendering callback: the (transformed) normalized
items, the `hasNoResults` flag and the `isFirstRender` flag. -/
structure RenderCall where
  items : List RItem
  hasNoResults : Bool
  isFirstRender : Bool
deriving Repr

/-- What the `init` hook produces: the working item list retained for the
widget's lifetime (possibly extended with the synthetic item), the number of
warnings fired, and the render-callback invocations. -/
structure InitResult where
  items : List Item
  warningsFired : Nat
  renderCalls : List RenderCall

/-- The `init` hook: checks whether the state's `hitsPerPage` matches a
configured item; if not, fires `warning(state.hitsPerPage !== undefined, …)`
and `warning(false, …)` and prepends the synthetic item to the working list;
then invokes the rendering callback once with `hasNoResults: true` and
`isFirstRendering = true`. -/
def init (transform : List RItem → List RItem) (items : List Item)
    (state : SearchParameters) : InitResult :=
  let workingItems :=
    if isCurrentInOptions items state then items else syntheticItem :: items
  let warnings :=
    if isCurrentInOptions items state then 0
    else
      (if warningFires (!jsStrictEq state.hitsPerPage .undef) then 1 else 0) +
        (if warningFires false then 1 else 0)
  { items := workingItems
    warningsFired := warnings
    renderCalls :=
      [{ items := transform (normalizeItems workingItems state.hitsPerPage)
         hasNoResults := true
         isFirstRender := true }] }

/-- The `render` hook: invokes the rendering callback once with the
recomputed normalized items, `hasNoResults: results.nbHits === 0` and
`isFirstRendering = false`. -/
def render (transform : List RItem → List RItem) (items : List Item)
    (state : SearchParameters) (nbHits : Nat) : List RenderCall :=
  [{ items := transform (normalizeItems items state.hitsPerPage)
     hasNoResults := nbHits == 0
     isFirstRender := false }]

/-- What the `dispose` hook produces: the total unmount-callback invocation
count and the returned state. -/
structure DisposeResult where
  unmountCalls : Nat
  state : SearchParameters
deriving DecidableEq, Repr

/-- The `dispose` hook: calls `unmountFn()` (incrementing the invocation
count by one) and returns the state with `hitsPerPage` set to `undefined`. -/
def dispose (unmountCalls : Nat) (state : SearchParameters) : DisposeResult :=
  { unmountCalls := unmountCalls + 1
    state := { state with hitsPerPage := .undef } }

/-- `getWidgetState`: returns `uiState` unchanged when the parameters'
`hitsPerPage` is `undefined` or strictly equal to the default item's value,
otherwise `uiState` extended with the `hitsPerPage` field. -/
def getWidgetState (defaultItem : Item) (uiState : UiState)
    (searchParameters : SearchParameters) : UiState :=
  let hitsPerPage := searchParameters.hitsPerPage
  if jsStrictEq hitsPerPage .undef || jsStrictEq hitsPerPage defaultItem.value
  then uiState
  else { uiState with hitsPerPage := hitsPerPage }

/-- `getWidgetSearchParameters`: sets `hitsPerPage` to
`uiState.hitsPerPage || defaultItem.value` (JavaScript `||`: the left value
when truthy, the right one otherwise), leaving every other parameter. -/
def getWidgetSearchParameters (defaultItem : Item)
    (searchParameters : SearchParameters) (uiState : UiState) :
    SearchParameters :=
  { searchParameters with
      hitsPerPage :=
        if truthy uiState.hitsPerPage then uiState.hitsPerPage
        else defaultItem.value }

/-! ## Helper lemmas -/

lemma hasSubstring_append (n a b : List Char) (h : hasSubstring n b = true) :
    hasSubstring n (a ++ b) = true := by
  induction a with
  | nil => simpa using h
  | cons c t ih => simp [hasSubstring, ih]

lemma mentionsDocumentation_withUsage (m : String) :
    mentionsDocumentation (withUsage m) = true := by
  unfold mentionsDocumentation withUsage
  rw [String.data_append]
  exact hasSubstring_append _ _ _ (by decide)

lemma jsStrictEq_num_zero (v : JSVal) :
    jsStrictEq v (.num 0) = true ↔ v = .num 0 := by
  cases v <;> simp [jsStrictEq]

lemma jsStrictEq_undef_right (v : JSVal) :
    jsStrictEq v .undef = true ↔ v = .undef := by
  cases v <;> simp [jsStrictEq]

/-! ## Claims -/

/-- C1: for every widgetParams, widget construction throws an error with a
documentation-referencing message if the items option is not an array, if
zero items have default=true, or if more than one item has default=true;
when exactly one item has default=true, construction succeeds and that item
is retained as the default item. -/
theorem construction_validation (items : List Item) :
    (∃ msg, construct ItemsOption.notArray = Except.error msg ∧
      mentionsDocumentation msg = true) ∧
    ((items.filter isDefaultItem).length = 0 →
      ∃ msg, construct (ItemsOption.array items) = Except.error msg ∧
        mentionsDocumentation msg = true) ∧
    (1 < (items.filter isDefaultItem).length →
      ∃ msg, construct (ItemsOption.array items) = Except.error msg ∧
        mentionsDocumentation msg = true) ∧
    (∀ d, items.filter isDefaultItem = [d] →
      construct (ItemsOption.array items) =
        Except.ok { items := items, defaultItem := d }) := by
  refine ⟨⟨_, rfl, mentionsDocumentation_withUsage _⟩, ?_, ?_, ?_⟩
  · intro h
    have h' : items.filter isDefaultItem = [] := List.length_eq_zero.mp h
    exact ⟨withUsage "A default value must be specified in `items`.",
      by simp [construct, h'], mentionsDocumentation_withUsage _⟩
  · intro h
    match hf : items.filter isDefaultItem with
    | [] => rw [hf] at h; simp at h
    | [d] => rw [hf] at h; simp at h
    | a :: b :: t =>
      exact ⟨withUsage "More than one default value is specified in `items`.",
        by simp [construct, hf], mentionsDocumentation_withUsage _⟩
  · intro d hd
    simp [construct, hd]

/-- C1 witness: concrete instances of each construction outcome. -/
theorem construction_validation_witness :
    (∃ msg, construct (ItemsOption.array []) = Except.error msg ∧
      mentionsDocumentation msg = true) ∧
    (∃ msg,
      construct (ItemsOption.array
        [⟨"6", JSVal.num 6, some true⟩, ⟨"12", JSVal.num 12, some true⟩]) =
          Except.error msg ∧ mentionsDocumentation msg = true) ∧
    construct (ItemsOption.array
        [⟨"6", JSVal.num 6, some true⟩, ⟨"12", JSVal.num 12, none⟩]) =
      Except.ok
        { items := [⟨"6", JSVal.num 6, some true⟩, ⟨"12", JSVal.num 12, none⟩]
          defaultItem := ⟨"6", JSVal.num 6, some true⟩ } :=
  ⟨(construction_validation []).2.1 (by decide),
    (construction_validation _).2.2.1 (by decide),
    (construction_validation _).2.2.2 _ (by decide)⟩

/-- C2: refine with 0 sets the hitsPerPage parameter to 0; every other
falsy value clears it; every truthy value sets it to that value; in all
cases a new search is triggered on the helper afterwards (and no other
parameter changes). -/
theorem refine_behavior (helper : Helper) (value : JSVal) :
    (setHitsPerPage helper (JSVal.num 0)).state.hitsPerPage = JSVal.num 0 ∧
    (truthy value = false → value ≠ JSVal.num 0 →
      (setHitsPerPage helper value).state.hitsPerPage = JSVal.undef) ∧
    (truthy value = true →
      (setHitsPerPage helper value).state.hitsPerPage = value) ∧
    (setHitsPerPage helper value).searchCount = helper.searchCount + 1 ∧
    (setHitsPerPage helper value).state.otherParams =
      helper.state.otherParams := by
  refine ⟨rfl, ?_, ?_, ?_, ?_⟩
  · intro h1 h2
    cases value <;>
      simp_all [setHitsPerPage, truthy, jsStrictEq, Helper.search,
        Helper.setHitsPerPageParam]
  · intro h1
    cases value <;>
      simp_all [setHitsPerPage, truthy, jsStrictEq, Helper.search,
        Helper.setHitsPerPageParam]
  · cases h : (!truthy value && !jsStrictEq value (.num 0)) <;>
      simp [setHitsPerPage, h, Helper.search, Helper.setHitsPerPageParam]
  · cases h : (!truthy value && !jsStrictEq value (.num 0)) <;>
      simp [setHitsPerPage, h, Helper.search, Helper.setHitsPerPageParam]

/-- C2 witness: a concrete helper refined with the empty string has its
parameter cleared, and with 7 has it set. -/
theorem refine_behavior_witness :
    (setHitsPerPage ⟨⟨JSVal.num 6, 3⟩, 0⟩ (JSVal.str "")).state.hitsPerPage =
        JSVal.undef ∧
    (setHitsPerPage ⟨⟨JSVal.num 6, 3⟩, 0⟩ (JSVal.num 7)).state.hitsPerPage =
        JSVal.num 7 :=
  ⟨(refine_behavior ⟨⟨JSVal.num 6, 3⟩, 0⟩ (JSVal.str "")).2.1 (by decide)
      (by decide),
    (refine_behavior ⟨⟨JSVal.num 6, 3⟩, 0⟩ (JSVal.num 7)).2.2.1 (by decide)⟩

/-- C6: normalizeItems is pure, preserves length and the label, value and
default fields, and sets isRefined by numeric equality with the current
value; on items 6 (default) and 12 with current page size 12, the 12-item
is refined and the 6-item is not. -/
theorem normalize_items_pure (items : List Item) (hitsPerPage : JSVal) :
    (normalizeItems items hitsPerPage).length = items.length ∧
    (normalizeItems items hitsPerPage).map RItem.label =
      items.map Item.label ∧
    (normalizeItems items hitsPerPage).map RItem.value =
      items.map Item.value ∧
    (normalizeItems items hitsPerPage).map RItem.default =
      items.map Item.default ∧
    (normalizeItems items hitsPerPage).map RItem.isRefined =
      items.map
        (fun item => numEq (toNumber item.value) (toNumber hitsPerPage)) ∧
    (normalizeItems [⟨"6", JSVal.num 6, some true⟩, ⟨"12", JSVal.num 12, none⟩]
        (JSVal.num 12)).map RItem.isRefined = [false, true] := by
  refine ⟨?_, ?_, ?_, ?_, ?_, by decide⟩ <;>
    simp [normalizeItems, List.map_map]

/-- C7: the init hook invokes the rendering callback exactly once with
isFirstRender true and hasNoResults true, and every render hook invokes it
exactly once with isFirstRender false and hasNoResults iff nbHits = 0. -/
theorem render_callback_flags (transform : List RItem → List RItem)
    (items : List Item) (state : SearchParameters) (nbHits : Nat) :
    (init transform items state).renderCalls.length = 1 ∧
    ((init transform items state).renderCalls.all fun c =>
      c.isFirstRender && c.hasNoResults) = true ∧
    (render transform items state nbHits).length = 1 ∧
    ((render transform items state nbHits).all fun c =>
      (!c.isFirstRender) && (c.hasNoResults == (nbHits == 0))) = true := by
  refine ⟨?_, ?_, ?_, ?_⟩ <;> simp [init, render]

/-- C8: the dispose hook calls the unmount callback exactly once and
returns the state with the hitsPerPage parameter set to undefined, other
parameters untouched. -/
theorem dispose_behavior (unmountCalls : Nat) (state : SearchParameters) :
    (dispose unmountCalls state).unmountCalls = unmountCalls + 1 ∧
    (dispose unmountCalls state).state.hitsPerPage = JSVal.undef ∧
    (dispose unmountCalls state).state.otherParams = state.otherParams :=
  ⟨rfl, rfl, rfl⟩

/-- C3 counterexample: with items 6 (default) and 12 and state page size 24,
the state value matches no item, yet only one warning fires (the first
warning's condition, that hitsPerPage is not undefined, holds), refuting
the claim that exactly two warnings fire whenever the value is unmatched. -/
theorem init_warning_count_counterexample :
    isCurrentInOptions
        [⟨"6", JSVal.num 6, some true⟩, ⟨"12", JSVal.num 12, none⟩]
        ⟨JSVal.num 24, 0⟩ = false ∧
    (init id [⟨"6", JSVal.num 6, some true⟩, ⟨"12", JSVal.num 12, none⟩]
        ⟨JSVal.num 24, 0⟩).warningsFired = 1 := by
  constructor
  · decide
  · rfl

/-- C3 (amended): at init, when the state's hitsPerPage matches no item,
the synthetic empty item is prepended to the working list, which every
later render keeps using; two warnings fire when the state value is
undefined, but only one when it is defined and merely unlisted; when the
state value matches some item, no warning fires and the list is
unchanged. -/
theorem init_recovery (transform : List RItem → List RItem)
    (items : List Item) (state : SearchParameters) :
    (isCurrentInOptions items state = true →
      (init transform items state).warningsFired = 0 ∧
      (init transform items state).items = items) ∧
    (isCurrentInOptions items state = false →
      state.hitsPerPage = JSVal.undef →
      (init transform items state).warningsFired = 2 ∧
      (init transform items state).items = syntheticItem :: items) ∧
    (isCurrentInOptions items state = false →
      state.hitsPerPage ≠ JSVal.undef →
      (init transform items state).warningsFired = 1 ∧
      (init transform items state).items = syntheticItem :: items) ∧
    (∀ s2 nbHits, render transform (init transform items state).items s2
        nbHits =
      [⟨transform
          (normalizeItems (init transform items state).items s2.hitsPerPage),
        nbHits == 0, false⟩]) := by
  refine ⟨?_, ?_, ?_, fun s2 nbHits => rfl⟩
  · intro h
    simp [init, h]
  · intro h hu
    simp [init, h, warningFires, hu, jsStrictEq]
  · intro h hu
    have hne : jsStrictEq state.hitsPerPage JSVal.undef = false := by
      cases hv : state.hitsPerPage <;> simp_all [jsStrictEq]
    simp [init, h, warningFires, hne]

/-- C3 witness: concrete instances of the three init outcomes. -/
theorem init_recovery_witness :
    ((init id [⟨"6", JSVal.num 6, some true⟩] ⟨JSVal.num 6, 0⟩).warningsFired
        = 0 ∧
      (init id [⟨"6", JSVal.num 6, some true⟩] ⟨JSVal.num 6, 0⟩).items =
        [⟨"6", JSVal.num 6, some true⟩]) ∧
    ((init id [⟨"6", JSVal.num 6, some true⟩] ⟨JSVal.undef, 0⟩).warningsFired
        = 2 ∧
      (init id [⟨"6", JSVal.num 6, some true⟩] ⟨JSVal.undef, 0⟩).items =
        syntheticItem :: [⟨"6", JSVal.num 6, some true⟩]) ∧
    ((init id [⟨"6", JSVal.num 6, some true⟩] ⟨JSVal.num 24, 0⟩).warningsFired
        = 1 ∧
      (init id [⟨"6", JSVal.num 6, some true⟩] ⟨JSVal.num 24, 0⟩).items =
        syntheticItem :: [⟨"6", JSVal.num 6, some true⟩]) :=
  ⟨(init_recovery id [⟨"6", JSVal.num 6, some true⟩] ⟨JSVal.num 6, 0⟩).1
      (by decide),
    (init_recovery id [⟨"6", JSVal.num 6, some true⟩] ⟨JSVal.undef, 0⟩).2.1
      (by decide) rfl,
    (init_recovery id [⟨"6", JSVal.num 6, some true⟩] ⟨JSVal.num 24, 0⟩).2.2.1
      (by decide) (by decide)⟩

/-- C4 counterexample: with default item of value 6 and a uiState whose
hitsPerPage field is present and equal to 0, state import yields 6, not the
present uiState value, refuting the claim that a present value is always
applied. -/
theorem state_import_zero_counterexample :
    (⟨JSVal.num 0, 7⟩ : UiState).hitsPerPage ≠ JSVal.undef ∧
    (getWidgetSearchParameters ⟨"6", JSVal.num 6, some true⟩
        ⟨JSVal.undef, 5⟩ ⟨JSVal.num 0, 7⟩).hitsPerPage ≠
      (⟨JSVal.num 0, 7⟩ : UiState).hitsPerPage := by
  constructor
  · decide
  · decide

/-- C4 (amended): state import sets hitsPerPage to the uiState snapshot's
value when that value is truthy, and to the default item's value when it is
absent or otherwise falsy; no other parameter of the returned state differs
from the input. -/
theorem state_import_behavior (d : Item) (sp : SearchParameters)
    (ui : UiState) :
    (truthy ui.hitsPerPage = true →
      (getWidgetSearchParameters d sp ui).hitsPerPage = ui.hitsPerPage) ∧
    (truthy ui.hitsPerPage = false →
      (getWidgetSearchParameters d sp ui).hitsPerPage = d.value) ∧
    (getWidgetSearchParameters d sp ui).otherParams = sp.otherParams := by
  refine ⟨?_, ?_, rfl⟩
  · intro h
    simp [getWidgetSearchParameters, h]
  · intro h
    simp [getWidgetSearchParameters, h]

/-- C4 witness: a present truthy value 12 is applied; an absent value falls
back to the default item's value 6. -/
theorem state_import_behavior_witness :
    (getWidgetSearchParameters ⟨"6", JSVal.num 6, some true⟩
        ⟨JSVal.undef, 5⟩ ⟨JSVal.num 12, 7⟩).hitsPerPage = JSVal.num 12 ∧
    (getWidgetSearchParameters ⟨"6", JSVal.num 6, some true⟩
        ⟨JSVal.undef, 5⟩ ⟨JSVal.undef, 7⟩).hitsPerPage = JSVal.num 6 :=
  ⟨(state_import_behavior ⟨"6", JSVal.num 6, some true⟩ ⟨JSVal.undef, 5⟩
      ⟨JSVal.num 12, 7⟩).1 (by decide),
    (state_import_behavior ⟨"6", JSVal.num 6, some true⟩ ⟨JSVal.undef, 5⟩
      ⟨JSVal.undef, 7⟩).2.1 (by decide)⟩

/-- C5: state export returns the uiState unchanged when the parameters'
hitsPerPage is undefined or equals the default item's value, and otherwise
returns the uiState extended with the hitsPerPage field set to the current
value. -/
theorem state_export_behavior (d : Item) (ui : UiState)
    (sp : SearchParameters) :
    (sp.hitsPerPage = JSVal.undef → getWidgetState d ui sp = ui) ∧
    (jsStrictEq sp.hitsPerPage d.value = true → getWidgetState d ui sp = ui) ∧
    (sp.hitsPerPage ≠ JSVal.undef →
      jsStrictEq sp.hitsPerPage d.value = false →
      getWidgetState d ui sp = { ui with hitsPerPage := sp.hitsPerPage }) := by
  refine ⟨?_, ?_, ?_⟩
  · intro h
    simp [getWidgetState, h, jsStrictEq]
  · intro h
    simp [getWidgetState, h]
  · intro h1 h2
    have hne : jsStrictEq sp.hitsPerPage JSVal.undef = false := by
      cases hv : sp.hitsPerPage <;> simp_all [jsStrictEq]
    simp [getWidgetState, hne, h2]

/-- C5 witness: with default value 6, the current value 6 is omitted from
the uiState and the current value 12 is written into it. -/
theorem state_export_behavior_witness :
    getWidgetState ⟨"6", JSVal.num 6, some true⟩ ⟨JSVal.undef, 7⟩
        ⟨JSVal.num 6, 5⟩ = ⟨JSVal.undef, 7⟩ ∧
    getWidgetState ⟨"6", JSVal.num 6, some true⟩ ⟨JSVal.undef, 7⟩
        ⟨JSVal.num 12, 5⟩ = ⟨JSVal.num 12, 7⟩ :=
  ⟨(state_export_behavior ⟨"6", JSVal.num 6, some true⟩ ⟨JSVal.undef, 7⟩
      ⟨JSVal.num 6, 5⟩).2.1 (by decide),
    (state_export_behavior ⟨"6", JSVal.num 6, some true⟩ ⟨JSVal.undef, 7⟩
      ⟨JSVal.num 12, 5⟩).2.2 (by decide) (by decide)⟩

/-- C9: for a uiState whose hitsPerPage field is present and equal to 0,
state import falls back to the default item's value, treating every falsy
value as absent, unlike the refine callback, which keeps 0 as a genuine
value. -/
theorem state_import_zero_uses_default (d : Item) (sp : SearchParameters)
    (ui : UiState) (helper : Helper) (h : ui.hitsPerPage = JSVal.num 0) :
    (getWidgetSearchParameters d sp ui).hitsPerPage = d.value ∧
    (setHitsPerPage helper (JSVal.num 0)).state.hitsPerPage = JSVal.num 0 := by
  constructor
  · simp [getWidgetSearchParameters, h, truthy]
  · rfl

/-- C9 witness: concrete instance with default value 6. -/
theorem state_import_zero_uses_default_witness :
    (getWidgetSearchParameters ⟨"6", JSVal.num 6, some true⟩ ⟨JSVal.undef, 5⟩
        ⟨JSVal.num 0, 7⟩).hitsPerPage = JSVal.num 6 ∧
    (setHitsPerPage ⟨⟨JSVal.num 6, 3⟩, 0⟩ (JSVal.num 0)).state.hitsPerPage =
      JSVal.num 0 :=
  state_import_zero_uses_default ⟨"6", JSVal.num 6, some true⟩
    ⟨JSVal.undef, 5⟩ ⟨JSVal.num 0, 7⟩ ⟨⟨JSVal.num 6, 3⟩, 0⟩ rfl

/-- C10: if construction succeeds, the working item list holds exactly one
default-flagged item, namely the default item retained at construction; the
synthetic recovery item carries no default flag, so the list produced by
init keeps that same unique default item. -/
theorem default_item_invariant (itemsOpt : ItemsOption) (w : Widget)
    (transform : List RItem → List RItem) (state : SearchParameters)
    (h : construct itemsOpt = Except.ok w) :
    w.items.filter isDefaultItem = [w.defaultItem] ∧
    (init transform w.items state).items.filter isDefaultItem =
      [w.defaultItem] ∧
    isDefaultItem syntheticItem = false := by
  have hw : w.items.filter isDefaultItem = [w.defaultItem] := by
    cases itemsOpt with
    | notArray => simp [construct] at h
    | array items =>
      match hf : items.filter isDefaultItem with
      | [] => rw [construct, hf] at h; simp at h
      | [d] =>
        rw [construct, hf] at h
        simp at h
        rw [← h, hf]
      | a :: b :: t => rw [construct, hf] at h; simp at h
  refine ⟨hw, ?_, rfl⟩
  by_cases hc : isCurrentInOptions w.items state = true
  · simp [init, hc, hw]
  · simp only [Bool.not_eq_true] at hc
    simp [init, hc, List.filter, syntheticItem, isDefaultItem, hw]

/-- C10 witness: a concrete successful construction keeps its unique
default item through init. -/
theorem default_item_invariant_witness :
    [⟨"6", JSVal.num 6, some true⟩, ⟨"12", JSVal.num 12, none⟩].filter
        isDefaultItem = [(⟨"6", JSVal.num 6, some true⟩ : Item)] ∧
    (init id [⟨"6", JSVal.num 6, some true⟩, ⟨"12", JSVal.num 12, none⟩]
        ⟨JSVal.num 24, 0⟩).items.filter isDefaultItem =
      [(⟨"6", JSVal.num 6, some true⟩ : Item)] ∧
    isDefaultItem syntheticItem = false :=
  default_item_invariant
    (ItemsOption.array
      [⟨"6", JSVal.num 6, some true⟩, ⟨"12", JSVal.num 12, none⟩])
    { items := [⟨"6", JSVal.num 6, some true⟩, ⟨"12", JSVal.num 12, none⟩]
      defaultItem := ⟨"6", JSVal.num 6, some true⟩ }
    id ⟨JSVal.num 24, 0⟩ rfl

end ConnectHitsPerPage
